import Mathlib

/-!
Shallow embedding of the fpl_selector repository (src/fpl_analyzer.py,
src/live_draft.py, src/pre_draft.py) and verification of the specification
claims about it.  Definitions translate the source functions; the theorems
settle the claims C1-C10 about them.

Numeric conventions: Python's arbitrary-precision integers are modelled by
`ℤ`; Python's `//` and `%` (floor division / floor modulus) are modelled by
`Int.fdiv` / `Int.fmod`, which share Python's rounding convention.  Floating
point statistics and scores are idealised as exact rationals `ℚ`.  A Python
operation that can raise an exception (dictionary `KeyError`,
`ZeroDivisionError`) is modelled with `Option`, `none` being the uncaught
exception.
-/

/-! ## Definitions translated from the source -/

/-- Result record of `LiveDraftTool.calculate_current_pick`. -/
structure DraftStatus where
  current_round : ℤ
  current_picker : ℤ
  picks_until_yours : ℤ
  total_picks_made : ℤ
deriving DecidableEq, Repr

/-- `current_round = (total_picks_made // self.total_teams) + 1` (live_draft.py:127). -/
def pick_round (picks total_teams : ℤ) : ℤ :=
  picks.fdiv total_teams + 1

/-- `pick_in_round = (total_picks_made % self.total_teams) + 1` (live_draft.py:128). -/
def pick_in_round (picks total_teams : ℤ) : ℤ :=
  picks.fmod total_teams + 1

/-- Snake draft picker slot: `pick_in_round` on odd rounds,
`total_teams - pick_in_round + 1` on even rounds (live_draft.py:131-134). -/
def current_picker (picks total_teams : ℤ) : ℤ :=
  if (pick_round picks total_teams).fmod 2 = 1 then pick_in_round picks total_teams
  else total_teams - pick_in_round picks total_teams + 1

/-- `picks_until_yours` computation of live_draft.py:137-149, including the
wrap-around into the next (direction-reversed) round. -/
def picks_until_yours (picks your_position total_teams : ℤ) : ℤ :=
  if current_picker picks total_teams ≤ your_position ∧
      (pick_round picks total_teams).fmod 2 = 1 then
    your_position - current_picker picks total_teams
  else if your_position ≤ current_picker picks total_teams ∧
      (pick_round picks total_teams).fmod 2 = 0 then
    current_picker picks total_teams - your_position
  else
    (total_teams - pick_in_round picks total_teams + 1) +
      (if (pick_round picks total_teams).fmod 2 = 1 then total_teams - your_position + 1
       else your_position) - 1

/-- `LiveDraftTool.calculate_current_pick` (live_draft.py:124-156).  The taken
count is passed explicitly (`len(self.taken_players)`); `total_teams = 0`
raises `ZeroDivisionError` in Python, modelled as `none`. -/
def calculate_current_pick (picks your_position total_teams : ℤ) : Option DraftStatus :=
  if total_teams = 0 then none
  else some ⟨pick_round picks total_teams, current_picker picks total_teams,
    picks_until_yours picks your_position total_teams, picks⟩

/-- A pandas row / Series is modelled as an association list from statistic
name to (exact rational) numeric value; lookup takes the first binding. -/
def statLookup : List (String × ℚ) → String → Option ℚ
  | [], _ => none
  | (s, v) :: rest, k => if s = k then some v else statLookup rest k

/-- One sample-data row of fpl_analyzer.py (`load_sample_data`). -/
structure PlayerRecord where
  player : String
  team : String
  position : String
  stats : List (String × ℚ)
deriving DecidableEq, Repr

/-- Forward weights of `FPLPlayerAnalyzer._initialize_position_weights`
(fpl_analyzer.py:29-53). -/
def analyzerWeightsFW : List (String × ℚ) :=
  [("goals", 9), ("assists", 6), ("shots_on_target", 2), ("key_passes", 2),
   ("successful_dribbles", 1), ("accurate_crosses", 1), ("yellow_cards", -2),
   ("red_cards", -7), ("aerials_won", 0.5), ("effective_clearances", 0.15),
   ("saves", 2), ("smothers", 1), ("clean_sheets", 0.25), ("tackles_won", 1),
   ("penalty_kicks_drawn", 2), ("penalty_kicks_missed", -4), ("own_goals", -5),
   ("dispossessed", -0.5), ("blocked_shots", 1), ("goals_against", -0.15),
   ("interceptions", 1), ("penalty_saves", 8), ("high_claims", 1)]

/-- Midfielder weights (fpl_analyzer.py:54-78). -/
def analyzerWeightsMF : List (String × ℚ) :=
  [("goals", 9), ("assists", 6), ("shots_on_target", 2), ("key_passes", 2),
   ("successful_dribbles", 1), ("accurate_crosses", 1), ("tackles_won", 1),
   ("interceptions", 1), ("yellow_cards", -2), ("red_cards", -7),
   ("clean_sheets", 0.75), ("saves", 2), ("smothers", 1),
   ("effective_clearances", 0.25), ("aerials_won", 0.5),
   ("penalty_kicks_drawn", 2), ("own_goals", -5), ("dispossessed", -0.5),
   ("blocked_shots", 1), ("goals_against", -1), ("penalty_kicks_missed", -4),
   ("penalty_saves", 8), ("high_claims", 1)]

/-- Defender weights (fpl_analyzer.py:79-103). -/
def analyzerWeightsDF : List (String × ℚ) :=
  [("goals", 10), ("assists", 7), ("goals_against", -2), ("tackles_won", 1),
   ("interceptions", 1), ("yellow_cards", -2), ("red_cards", -7),
   ("clean_sheets", 4), ("shots_on_target", 2), ("saves", 2),
   ("penalty_kicks_drawn", 2), ("smothers", 1), ("key_passes", 2),
   ("successful_dribbles", 1), ("aerials_won", 1), ("blocked_shots", 1),
   ("effective_clearances", 0.25), ("own_goals", -5), ("dispossessed", -0.5),
   ("penalty_saves", 8), ("penalty_kicks_missed", -4), ("accurate_crosses", 1),
   ("high_claims", 1)]

/-- Goalkeeper weights (fpl_analyzer.py:104-129). -/
def analyzerWeightsGK : List (String × ℚ) :=
  [("goals_against", -2), ("clean_sheets", 3), ("saves", 2), ("high_claims", 1),
   ("smothers", 1), ("yellow_cards", -2), ("red_cards", -7),
   ("shots_on_target", 2), ("tackles_won", 1), ("key_passes", 2),
   ("clean_sheets_full_game", 5), ("penalty_kicks_missed", -4), ("assists", 7),
   ("penalty_kicks_drawn", 2), ("dispossessed", -0.5), ("aerials_won", 1),
   ("blocked_shots", 1), ("effective_clearances", 0.25),
   ("successful_dribbles", 1), ("goals", 10), ("penalty_saves", 8),
   ("own_goals", -5), ("interceptions", 1), ("accurate_crosses", 1)]

/-- `self.position_weights[position]` of fpl_analyzer.py; a key outside the
four positions raises `KeyError`, modelled as `none`. -/
def position_weights (pos : String) : Option (List (String × ℚ)) :=
  if pos = "FW" then some analyzerWeightsFW
  else if pos = "MF" then some analyzerWeightsMF
  else if pos = "DF" then some analyzerWeightsDF
  else if pos = "GK" then some analyzerWeightsGK
  else none

/-- The accumulation loop of both scoring functions: for every statistic in
the weight table that is present in the record, add `count * weight`. -/
def rawWeightedSum (weights stats : List (String × ℚ)) : ℚ :=
  weights.foldl
    (fun acc sw =>
      match statLookup stats sw.1 with
      | some v => acc + v * sw.2
      | none => acc) 0

/-- `FPLPlayerAnalyzer.calculate_fpl_score` (fpl_analyzer.py:193-212):
weighted sum, then `score *= 38 / max(games_played, 1)` when the record
carries a positive `games_played`.  Unknown position is the `KeyError` of
`self.position_weights[position]` (`none`). -/
def calculate_fpl_score (r : PlayerRecord) (position : String) : Option ℚ :=
  match position_weights position with
  | none => none
  | some weights =>
    let score := rawWeightedSum weights r.stats
    match statLookup r.stats "games_played" with
    | some gp => if 0 < gp then some (score * (38 / max gp 1)) else some score
    | none => some score

/-- Forward weights of `PreDraftAnalyzer._initialize_position_weights`
(pre_draft.py:52-57). -/
def preWeightsFW : List (String × ℚ) :=
  [("goals", 9), ("assists", 6), ("shots_on_target", 2), ("key_passes", 2),
   ("successful_dribbles", 1), ("accurate_crosses", 1), ("yellow_cards", -2),
   ("red_cards", -7), ("aerials_won", 0.5), ("clean_sheets", 0.25),
   ("penalty_goals", 9), ("penalty_missed", -4), ("own_goals", -5)]

/-- Midfielder weights (pre_draft.py:58-63). -/
def preWeightsMF : List (String × ℚ) :=
  [("goals", 9), ("assists", 6), ("shots_on_target", 2), ("key_passes", 2),
   ("successful_dribbles", 1), ("accurate_crosses", 1), ("tackles_won", 1),
   ("interceptions", 1), ("yellow_cards", -2), ("red_cards", -7),
   ("clean_sheets", 0.75), ("penalty_goals", 9), ("penalty_missed", -4)]

/-- Defender weights (pre_draft.py:64-69). -/
def preWeightsDF : List (String × ℚ) :=
  [("goals", 10), ("assists", 7), ("clean_sheets", 4), ("tackles_won", 1),
   ("interceptions", 1), ("yellow_cards", -2), ("red_cards", -7),
   ("shots_on_target", 2), ("aerials_won", 1), ("penalty_goals", 10),
   ("goals_against", -2), ("own_goals", -5)]

/-- Goalkeeper weights (pre_draft.py:70-74). -/
def preWeightsGK : List (String × ℚ) :=
  [("clean_sheets", 5), ("saves", 2), ("penalty_saves", 8),
   ("goals_against", -2), ("yellow_cards", -2), ("red_cards", -7),
   ("assists", 7), ("goals", 10)]

/-- `pos in self.position_weights` lookup of pre_draft.py. -/
def pre_position_weights (pos : String) : Option (List (String × ℚ)) :=
  if pos = "FW" then some preWeightsFW
  else if pos = "MF" then some preWeightsMF
  else if pos = "DF" then some preWeightsDF
  else if pos = "GK" then some preWeightsGK
  else none

/-- `calc_score` inside `PreDraftAnalyzer.calculate_fpl_scores`
(pre_draft.py:193-207): returns 0 for an unknown position, otherwise the
weighted sum divided by `max(row.get('apps', 1), 1)` and projected to a
38-game season.  The row's position is taken from the row itself. -/
def calc_score (stats : List (String × ℚ)) (pos : String) : ℚ :=
  match pre_position_weights pos with
  | none => 0
  | some weights =>
    let score := rawWeightedSum weights stats
    let games := max ((statLookup stats "apps").getD 1) 1
    score / games * 38

/-- Distinguishable outcome of marking a player taken: live_draft.py prints
a success message on the append branch and an "already marked as taken"
warning on the other. -/
inductive TakenResult where
  | newlyTaken : TakenResult
  | alreadyTaken : TakenResult
deriving DecidableEq, Repr

/-- `LiveDraftTool.add_taken_player` (live_draft.py:158-170): append the name
to `self.taken_players` only when it is not already present. -/
def add_taken_player (taken : List String) (name : String) :
    List String × TakenResult :=
  if name ∈ taken then (taken, .alreadyTaken)
  else (taken ++ [name], .newlyTaken)

/-- `FPLPlayerAnalyzer.add_taken_players` (fpl_analyzer.py:214-217):
`self.taken_players.extend(players)` — an unconditional extend. -/
def add_taken_players (taken : List String) (players : List String) :
    List String :=
  taken ++ players

/-- `self.roster_requirements` (live_draft.py:48-54); `.get(position, 0)`
returns 0 for unknown keys. -/
def roster_requirements (pos : String) : ℕ :=
  if pos = "FW" then 2
  else if pos = "MF" then 5
  else if pos = "DF" then 3
  else if pos = "GK" then 1
  else if pos = "BENCH" then 6
  else 0

/-- `self.your_roster` (live_draft.py:57-63): one ordered list per position
bucket. -/
structure Roster where
  fw : List String
  mf : List String
  df : List String
  gk : List String
  bench : List String
deriving DecidableEq, Repr

/-- `self.your_roster[position]`, guarded by `position in self.your_roster`
(live_draft.py:357): `none` for an unknown position key. -/
def roster_get (r : Roster) (pos : String) : Option (List String) :=
  if pos = "FW" then some r.fw
  else if pos = "MF" then some r.mf
  else if pos = "DF" then some r.df
  else if pos = "GK" then some r.gk
  else if pos = "BENCH" then some r.bench
  else none

/-- Writing back `self.your_roster[position]`. -/
def roster_set (r : Roster) (pos : String) (l : List String) : Roster :=
  if pos = "FW" then { r with fw := l }
  else if pos = "MF" then { r with mf := l }
  else if pos = "DF" then { r with df := l }
  else if pos = "GK" then { r with gk := l }
  else if pos = "BENCH" then { r with bench := l }
  else r

/-- Outcome printed by `add_to_your_roster`: success, "<position> is full",
or "Invalid position". -/
inductive RosterResult where
  | added : RosterResult
  | positionFull : RosterResult
  | invalidPosition : RosterResult
deriving DecidableEq, Repr

/-- `LiveDraftTool.add_to_your_roster` (live_draft.py:355-370): appends when
`current < required or position == 'BENCH'`, also marking the player taken;
otherwise rejects without mutating anything. -/
def add_to_your_roster (r : Roster) (taken : List String) (name pos : String) :
    Roster × List String × RosterResult :=
  match roster_get r pos with
  | none => (r, taken, .invalidPosition)
  | some cur =>
    if cur.length < roster_requirements pos ∨ pos = "BENCH" then
      (roster_set r pos (cur ++ [name]), (add_taken_player taken name).1, .added)
    else (r, taken, .positionFull)

/-- Comparison used by `nlargest`: larger key first, ties by original index. -/
def rankGe {α : Type} (key : α → ℚ) (a b : ℕ × α) : Prop :=
  key b.2 < key a.2 ∨ (key a.2 = key b.2 ∧ a.1 ≤ b.1)

/-- Comparison used by `nsmallest`: smaller key first, ties by original index. -/
def rankLe {α : Type} (key : α → ℚ) (a b : ℕ × α) : Prop :=
  key a.2 < key b.2 ∨ (key a.2 = key b.2 ∧ a.1 ≤ b.1)

instance {α : Type} (key : α → ℚ) : DecidableRel (rankGe key) := fun a b =>
  decidable_of_iff (key b.2 < key a.2 ∨ (key a.2 = key b.2 ∧ a.1 ≤ b.1)) Iff.rfl

instance {α : Type} (key : α → ℚ) : DecidableRel (rankLe key) := fun a b =>
  decidable_of_iff (key a.2 < key b.2 ∨ (key a.2 = key b.2 ∧ a.1 ≤ b.1)) Iff.rfl

instance {α : Type} (key : α → ℚ) : IsTotal (ℕ × α) (rankGe key) := by
  constructor
  intro a b
  rcases lt_trichotomy (key a.2) (key b.2) with h | h | h
  · exact Or.inr (Or.inl h)
  · rcases Nat.le_total a.1 b.1 with h1 | h1
    · exact Or.inl (Or.inr ⟨h, h1⟩)
    · exact Or.inr (Or.inr ⟨h.symm, h1⟩)
  · exact Or.inl (Or.inl h)

instance {α : Type} (key : α → ℚ) : IsTrans (ℕ × α) (rankGe key) := by
  constructor
  rintro a b c (h1 | ⟨h1, h1'⟩) (h2 | ⟨h2, h2'⟩)
  · exact Or.inl (h2.trans h1)
  · exact Or.inl (h2 ▸ h1)
  · exact Or.inl (h1 ▸ h2)
  · exact Or.inr ⟨h1.trans h2, h1'.trans h2'⟩

instance {α : Type} (key : α → ℚ) : IsTotal (ℕ × α) (rankLe key) := by
  constructor
  intro a b
  rcases lt_trichotomy (key a.2) (key b.2) with h | h | h
  · exact Or.inl (Or.inl h)
  · rcases Nat.le_total a.1 b.1 with h1 | h1
    · exact Or.inl (Or.inr ⟨h, h1⟩)
    · exact Or.inr (Or.inr ⟨h.symm, h1⟩)
  · exact Or.inr (Or.inl h)

instance {α : Type} (key : α → ℚ) : IsTrans (ℕ × α) (rankLe key) := by
  constructor
  rintro a b c (h1 | ⟨h1, h1'⟩) (h2 | ⟨h2, h2'⟩)
  · exact Or.inl (h1.trans h2)
  · exact Or.inl (h2 ▸ h1)
  · exact Or.inl (h1 ▸ h2)
  · exact Or.inr ⟨h1.trans h2, h1'.trans h2'⟩

/-- Index-annotated stable descending sort by `key` (the order `nlargest`
enumerates rows in). -/
def stableDescSort {α : Type} (key : α → ℚ) (l : List α) : List (ℕ × α) :=
  l.enum.insertionSort (rankGe key)

/-- Index-annotated stable ascending sort by `key` (the order `nsmallest`
enumerates rows in). -/
def stableAscSort {α : Type} (key : α → ℚ) (l : List α) : List (ℕ × α) :=
  l.enum.insertionSort (rankLe key)

/-- `FPLPlayerAnalyzer.load_sample_data` (fpl_analyzer.py:164-191), the pool
`suggest_players` ranks over, transposed row by row. -/
def sample_data : List PlayerRecord :=
  [⟨"Mohamed Salah", "Liverpool", "FW",
    [("goals", 24), ("assists", 13), ("shots_on_target", 89), ("key_passes", 86),
     ("successful_dribbles", 45), ("tackles_won", 23), ("interceptions", 12),
     ("clean_sheets", 18), ("yellow_cards", 2), ("red_cards", 0),
     ("games_played", 34), ("minutes_played", 3060)]⟩,
   ⟨"Bruno Fernandes", "Manchester Utd", "MF",
    [("goals", 8), ("assists", 15), ("shots_on_target", 45), ("key_passes", 102),
     ("successful_dribbles", 23), ("tackles_won", 45), ("interceptions", 34),
     ("clean_sheets", 12), ("yellow_cards", 5), ("red_cards", 0),
     ("games_played", 32), ("minutes_played", 2880)]⟩,
   ⟨"Virgil van Dijk", "Liverpool", "DF",
    [("goals", 2), ("assists", 3), ("shots_on_target", 12), ("key_passes", 23),
     ("successful_dribbles", 8), ("tackles_won", 67), ("interceptions", 89),
     ("clean_sheets", 18), ("yellow_cards", 1), ("red_cards", 0),
     ("games_played", 35), ("minutes_played", 3150)]⟩,
   ⟨"Alisson", "Liverpool", "GK",
    [("goals", 0), ("assists", 1), ("shots_on_target", 2), ("key_passes", 12),
     ("successful_dribbles", 1), ("tackles_won", 12), ("interceptions", 23),
     ("clean_sheets", 18), ("yellow_cards", 0), ("red_cards", 0),
     ("games_played", 36), ("minutes_played", 3240)]⟩,
   ⟨"Harry Kane", "Bayern Munich", "FW",
    [("goals", 36), ("assists", 8), ("shots_on_target", 156), ("key_passes", 78),
     ("successful_dribbles", 34), ("tackles_won", 12), ("interceptions", 8),
     ("clean_sheets", 0), ("yellow_cards", 4), ("red_cards", 0),
     ("games_played", 35), ("minutes_played", 3150)]⟩,
   ⟨"Kevin De Bruyne", "Manchester City", "MF",
    [("goals", 7), ("assists", 18), ("shots_on_target", 31), ("key_passes", 124),
     ("successful_dribbles", 12), ("tackles_won", 34), ("interceptions", 23),
     ("clean_sheets", 15), ("yellow_cards", 3), ("red_cards", 0),
     ("games_played", 28), ("minutes_played", 2340)]⟩,
   ⟨"Ruben Dias", "Manchester City", "DF",
    [("goals", 1), ("assists", 2), ("shots_on_target", 8), ("key_passes", 18),
     ("successful_dribbles", 4), ("tackles_won", 78), ("interceptions", 67),
     ("clean_sheets", 15), ("yellow_cards", 2), ("red_cards", 0),
     ("games_played", 33), ("minutes_played", 2970)]⟩,
   ⟨"Jordan Pickford", "Everton", "GK",
    [("goals", 0), ("assists", 1), ("shots_on_target", 3), ("key_passes", 15),
     ("successful_dribbles", 2), ("tackles_won", 8), ("interceptions", 15),
     ("clean_sheets", 8), ("yellow_cards", 1), ("red_cards", 0),
     ("games_played", 36), ("minutes_played", 3240)]⟩,
   ⟨"Bukayo Saka", "Arsenal", "MF",
    [("goals", 11), ("assists", 13), ("shots_on_target", 67), ("key_passes", 89),
     ("successful_dribbles", 78), ("tackles_won", 34), ("interceptions", 23),
     ("clean_sheets", 12), ("yellow_cards", 1), ("red_cards", 0),
     ("games_played", 35), ("minutes_played", 3150)]⟩,
   ⟨"Gabriel Jesus", "Arsenal", "FW",
    [("goals", 11), ("assists", 5), ("shots_on_target", 43), ("key_passes", 34),
     ("successful_dribbles", 23), ("tackles_won", 18), ("interceptions", 12),
     ("clean_sheets", 12), ("yellow_cards", 2), ("red_cards", 0),
     ("games_played", 29), ("minutes_played", 2320)]⟩,
   ⟨"William Saliba", "Arsenal", "DF",
    [("goals", 1), ("assists", 1), ("shots_on_target", 6), ("key_passes", 12),
     ("successful_dribbles", 3), ("tackles_won", 89), ("interceptions", 78),
     ("clean_sheets", 18), ("yellow_cards", 3), ("red_cards", 0),
     ("games_played", 34), ("minutes_played", 3060)]⟩,
   ⟨"Aaron Ramsdale", "Arsenal", "GK",
    [("goals", 0), ("assists", 0), ("shots_on_target", 1), ("key_passes", 8),
     ("successful_dribbles", 1), ("tackles_won", 6), ("interceptions", 9),
     ("clean_sheets", 8), ("yellow_cards", 0), ("red_cards", 0),
     ("games_played", 32), ("minutes_played", 2880)]⟩]

/-- The `fpl_score` column added in `suggest_players`
(fpl_analyzer.py:247-249).  It is only evaluated on rows that already passed
the position filter, so the position is one of the four table keys and the
`KeyError` default is never taken. -/
def analyzerScore (r : PlayerRecord) (pos : String) : ℚ :=
  (calculate_fpl_score r pos).getD 0

/-- The availability filter of `suggest_players` (fpl_analyzer.py:236-240):
same position, not taken, team not excluded; a pandas boolean mask keeps the
original row order. -/
def available_players (taken excl : List String) (pos : String) :
    List PlayerRecord :=
  sample_data.filter
    (fun r => decide (r.position = pos ∧ r.player ∉ taken ∧ r.team ∉ excl))

/-- `suggest_players` (fpl_analyzer.py:219-259) with the rows annotated by
their index in the filtered pool: empty pool returns early, then
`nlargest(n, 'fpl_score')` — empty for `n ≤ 0`, otherwise the first `n` rows
of the stable descending sort. -/
def suggest_annotated (taken excl : List String) (pos : String) (n : ℤ) :
    List (ℕ × PlayerRecord) :=
  if available_players taken excl pos = [] then []
  else if n ≤ 0 then []
  else (stableDescSort (fun r => analyzerScore r pos)
    (available_players taken excl pos)).take n.toNat

/-- The rows returned by `suggest_players`, in order. -/
def suggest_players (taken excl : List String) (pos : String) (n : ℤ) :
    List PlayerRecord :=
  (suggest_annotated taken excl pos n).map Prod.snd

/-- One row of `LiveDraftTool._create_sample_data` (live_draft.py:90-122). -/
structure LPlayer where
  name : String
  team : String
  fpl_score : ℚ
deriving DecidableEq, Repr

/-- Forward rows of `_create_sample_data` (live_draft.py:93-99). -/
def liveFW : List LPlayer :=
  [⟨"Erling Haaland", "Manchester City", 285⟩,
   ⟨"Mohamed Salah", "Liverpool", 275⟩,
   ⟨"Harry Kane", "Tottenham", 265⟩,
   ⟨"Darwin Núñez", "Liverpool", 220⟩,
   ⟨"Alexander Isak", "Newcastle", 210⟩]

/-- Midfielder rows (live_draft.py:100-106). -/
def liveMF : List LPlayer :=
  [⟨"Bruno Fernandes", "Manchester United", 255⟩,
   ⟨"Kevin De Bruyne", "Manchester City", 250⟩,
   ⟨"Bukayo Saka", "Arsenal", 240⟩,
   ⟨"Cole Palmer", "Chelsea", 220⟩,
   ⟨"Phil Foden", "Manchester City", 215⟩]

/-- Defender rows (live_draft.py:107-113). -/
def liveDF : List LPlayer :=
  [⟨"Virgil van Dijk", "Liverpool", 180⟩,
   ⟨"William Saliba", "Arsenal", 175⟩,
   ⟨"Ruben Dias", "Manchester City", 170⟩,
   ⟨"Gabriel", "Arsenal", 165⟩,
   ⟨"Trent Alexander-Arnold", "Liverpool", 160⟩]

/-- Goalkeeper rows (live_draft.py:114-120). -/
def liveGK : List LPlayer :=
  [⟨"Alisson", "Liverpool", 140⟩,
   ⟨"Ederson", "Manchester City", 135⟩,
   ⟨"Aaron Ramsdale", "Arsenal", 125⟩,
   ⟨"Jordan Pickford", "Everton", 120⟩,
   ⟨"Nick Pope", "Newcastle", 115⟩]

/-- `self.players_data[position]` for the sample data; an unknown position is
not a key of the dictionary (`position not in self.players_data`). -/
def live_pool (pos : String) : List LPlayer :=
  if pos = "FW" then liveFW
  else if pos = "MF" then liveMF
  else if pos = "DF" then liveDF
  else if pos = "GK" then liveGK
  else []

/-- The availability filter of `get_available_players` (live_draft.py:181). -/
def l_available (taken : List String) (pos : String) : List LPlayer :=
  (live_pool pos).filter (fun p => decide (p.name ∉ taken))

/-- pandas `DataFrame.head(n)`: the first `n` rows for `n ≥ 0`, and all rows
except the last `|n|` for negative `n`. -/
def pyHead {α : Type} (n : ℤ) (l : List α) : List α :=
  if 0 ≤ n then l.take n.toNat else l.take (l.length - (-n).toNat)

/-- `LiveDraftTool.get_available_players` (live_draft.py:172-189): empty when
the position is not a data key or no one is available, otherwise
`available.head(num_suggestions)` — note: `head`, not a sort. -/
def get_available_players (taken : List String) (pos : String) (n : ℤ) :
    List LPlayer :=
  if live_pool pos = [] then []
  else if l_available taken pos = [] then []
  else pyHead n (l_available taken pos)

/-- One row of `self.players_data` as `identify_value_picks` reads it: after
`_clean_player_data` added the per-90 rates and `calculate_fpl_scores` added
the `fpl_score` column. -/
structure VRow where
  name : String
  team : String
  position : String
  apps : ℚ
  gc_per_90 : ℚ
  goal_contributions : ℚ
  clean_sheets : ℚ
  saves : ℚ
  fpl_score : ℚ
deriving DecidableEq, Repr

/-- The position-specific `value_metric` column (pre_draft.py:262-273):
goal-contribution rate for FW/MF, `clean_sheets * 2 + goal_contributions`
for DF, `clean_sheets + saves * 0.1` for GK (the loop only visits the four
positions, so the final branch is the GK one). -/
def value_metric (pos : String) (r : VRow) : ℚ :=
  if pos = "FW" ∨ pos = "MF" then r.gc_per_90
  else if pos = "DF" then r.clean_sheets * 2 + r.goal_contributions
  else r.clean_sheets + r.saves * 0.1

/-- Ascending sort of a value column, as pandas `quantile` ranks it. -/
def sortedVals (l : List ℚ) : List ℚ := l.insertionSort (· ≤ ·)

/-- pandas `Series.quantile` with the default linear interpolation, idealised
over exact rationals; the quantile is passed as the fraction `qn / qd` (the
source uses the literals 0.7, 0.6 and 0.8), so the interpolation position is
`h = (m-1) * qn / qd` and its floor is the natural division `(m-1)*qn / qd`. -/
def pyQuantile (l : List ℚ) (qn qd : ℕ) : ℚ :=
  let s := sortedVals l
  let m := s.length
  let j : ℕ := ((m - 1) * qn) / qd
  let h : ℚ := ((m : ℚ) - 1) * qn / qd
  s.getD j 0 + (h - (j : ℚ)) * (s.getD (min (j + 1) (m - 1)) 0 - s.getD j 0)

/-- The eligibility filter of `identify_value_picks` (pre_draft.py:252-257):
minimum appearances over the whole table, then one position. -/
def pos_eligible (rows : List VRow) (minApps : ℚ) (pos : String) : List VRow :=
  (rows.filter (fun r => decide (minApps ≤ r.apps))).filter
    (fun r => decide (r.position = pos))

/-- The value-metric threshold (pre_draft.py:265-273): the 70th percentile
for FW/MF, the 60th for DF/GK, over the eligible set at that position. -/
def value_threshold (rows : List VRow) (minApps : ℚ) (pos : String) : ℚ :=
  pyQuantile ((pos_eligible rows minApps pos).map (value_metric pos))
    (if pos = "FW" ∨ pos = "MF" then 7 else 6) 10

/-- `fpl_threshold = pos_data['fpl_score'].quantile(0.8)` (pre_draft.py:276). -/
def score_threshold (rows : List VRow) (minApps : ℚ) (pos : String) : ℚ :=
  pyQuantile ((pos_eligible rows minApps pos).map VRow.fpl_score) 8 10

/-- The candidate filter (pre_draft.py:278-281): value metric at or above its
threshold and score strictly below the 80th-percentile score threshold. -/
def value_candidates (rows : List VRow) (minApps : ℚ) (pos : String) : List VRow :=
  (pos_eligible rows minApps pos).filter
    (fun r => decide (value_threshold rows minApps pos ≤ value_metric pos r ∧
      r.fpl_score < score_threshold rows minApps pos))

/-- One position of the `identify_value_picks` loop (pre_draft.py:244-295):
positions outside the loop's four keys produce nothing, an empty eligible set
is skipped, and otherwise the candidates go through `nsmallest(10,
'fpl_score')` followed by the display cap `head(5)`. -/
def identify_value_picks (rows : List VRow) (minApps : ℚ) (pos : String) : List VRow :=
  if pos ∈ ["FW", "MF", "DF", "GK"] then
    if pos_eligible rows minApps pos = [] then []
    else (((stableAscSort VRow.fpl_score
      (value_candidates rows minApps pos)).take 10).map Prod.snd).take 5
  else []

/-- A two-goalkeeper statistics table used to exercise the value-pick
detector on concrete data. -/
def value_sample_rows : List VRow :=
  [⟨"G1", "T", "GK", 10, 0, 0, 5, 0, 1⟩, ⟨"G2", "T", "GK", 10, 0, 0, 5, 0, 2⟩]

/-- Claim C2 counterexample: with 12 participants and user slot 7, after 7
picks have been made the code computes `picks_until_yours = 10`, not the 11
the claim states (the current picker is slot 8; the user's next pick is
overall pick 18, i.e. 10 picks away). -/
theorem C2_counterexample :
    calculate_current_pick 7 7 12 = some ⟨1, 8, 10, 7⟩ ∧ (10 : ℤ) ≠ 11 := by
  constructor
  · rfl
  · decide

/-- Claim C2 as amended: with `totalParticipants = 12` and `userSlot = 7`,
after 6 picks made `picksUntilUser = 0`, and after 7 picks made
`picksUntilUser = 10`. -/
theorem C2_amended :
    calculate_current_pick 6 7 12 = some ⟨1, 7, 0, 6⟩ ∧
    calculate_current_pick 7 7 12 = some ⟨1, 8, 10, 7⟩ := by
  constructor <;> rfl

/-- Claim C3: for every `picksMade ≥ 0` and `totalParticipants ≥ 1` the turn
calculator returns `round = (picksMade floor-div totalParticipants) + 1`, and
with `pickInRound = (picksMade mod totalParticipants) + 1` the current picker
slot equals `pickInRound` on odd rounds and
`totalParticipants - pickInRound + 1` on even rounds. -/
theorem C3_turn_round_and_picker (p s t : ℤ) (hp : 0 ≤ p) (ht : 1 ≤ t) :
    ∃ st : DraftStatus, calculate_current_pick p s t = some st ∧
      st.current_round = p.fdiv t + 1 ∧
      (st.current_round % 2 = 1 →
        st.current_picker = p.fmod t + 1) ∧
      (st.current_round % 2 = 0 →
        st.current_picker = t - (p.fmod t + 1) + 1) := by
  have ht0 : t ≠ 0 := by omega
  have h2 : ∀ a : ℤ, a.fmod 2 = a % 2 := fun a => Int.fmod_eq_emod a (by omega)
  refine ⟨_, by rw [calculate_current_pick, if_neg ht0], rfl, ?_, ?_⟩ <;>
    intro hpar <;>
    simp only [current_picker, pick_round, pick_in_round, h2] at hpar ⊢
  · rw [if_pos hpar]
  · rw [if_neg (by omega)]

theorem C3_witness :
    (0 : ℤ) ≤ 14 ∧ (1 : ℤ) ≤ 12 ∧
    ∃ st : DraftStatus, calculate_current_pick 14 7 12 = some st ∧
      st.current_round = (14 : ℤ).fdiv 12 + 1 ∧
      (st.current_round % 2 = 1 → st.current_picker = (14 : ℤ).fmod 12 + 1) ∧
      (st.current_round % 2 = 0 → st.current_picker = 12 - ((14 : ℤ).fmod 12 + 1) + 1) :=
  ⟨by decide, by decide, C3_turn_round_and_picker 14 7 12 (by decide) (by decide)⟩

/-- Claim C5 counterexample: `userSlot = 13` is outside `[1, 12]`, yet
`calculate_current_pick` returns an ordinary result (round 1, picker 1,
12 picks until the user) instead of signalling a `ConfigError`. -/
theorem C5_counterexample :
    calculate_current_pick 0 13 12 = some ⟨1, 1, 12, 0⟩ := by
  rfl

/-- Claim C5 as amended: `calculate_current_pick` performs no input
validation.  `totalParticipants = 0` fails with a division error (modelled
`none`); every other input — including negative participant counts and user
slots outside `[1, totalParticipants]` — produces an ordinary numeric result
with no error signal. -/
theorem C5_amended (p s t : ℤ) :
    (t = 0 → calculate_current_pick p s t = none) ∧
    (t ≠ 0 → (calculate_current_pick p s t).isSome = true) := by
  constructor
  · intro h
    rw [calculate_current_pick, if_pos h]
  · intro h
    rw [calculate_current_pick, if_neg h]
    rfl

theorem C5_amended_witness :
    calculate_current_pick 0 7 0 = none ∧
    (calculate_current_pick 0 13 (-5)).isSome = true :=
  ⟨(C5_amended 0 7 0).1 rfl, (C5_amended 0 13 (-5)).2 (by decide)⟩

/-- Claim C9: for every `picksMade ≥ 0`, `totalParticipants ≥ 1` and
`userSlot ∈ [1, totalParticipants]`, the computed `picksUntilUser` is
non-negative and is `0` exactly when the current picker slot equals the
user's slot. -/
theorem C9_picks_until_nonneg_iff (p s t : ℤ) (hp : 0 ≤ p) (ht : 1 ≤ t)
    (hs1 : 1 ≤ s) (hs2 : s ≤ t) :
    ∃ st : DraftStatus, calculate_current_pick p s t = some st ∧
      0 ≤ st.picks_until_yours ∧
      (st.picks_until_yours = 0 ↔ st.current_picker = s) := by
  have ht0 : t ≠ 0 := by omega
  have h2 : ∀ a : ℤ, a.fmod 2 = a % 2 := fun a => Int.fmod_eq_emod a (by omega)
  have hmt : ∀ a : ℤ, a.fmod t = a % t := fun a => Int.fmod_eq_emod a (by omega)
  have hr0 : 0 ≤ p % t := Int.emod_nonneg p ht0
  have hrt : p % t < t := Int.emod_lt_of_pos p (by omega)
  refine ⟨_, by rw [calculate_current_pick, if_neg ht0], ?_, ?_⟩
  all_goals
    simp only [picks_until_yours, current_picker, pick_round, pick_in_round, h2, hmt]
    split_ifs <;> omega

theorem C9_witness :
    (0 : ℤ) ≤ 14 ∧ (1 : ℤ) ≤ 12 ∧ (1 : ℤ) ≤ 7 ∧ (7 : ℤ) ≤ 12 ∧
    ∃ st : DraftStatus, calculate_current_pick 14 7 12 = some st ∧
      0 ≤ st.picks_until_yours ∧
      (st.picks_until_yours = 0 ↔ st.current_picker = 7) :=
  ⟨by decide, by decide, by decide, by decide,
    C9_picks_until_nonneg_iff 14 7 12 (by decide) (by decide) (by decide) (by decide)⟩

/-- Claim C1 counterexample: a pre-draft row with one goal and `apps = 0`.
Its raw weighted sum is 9, but `calc_score` returns `9 / max(0,1) * 38 = 342`
instead of the raw sum 9 that the claim requires for a zero games-played
count. -/
theorem C1_counterexample :
    calc_score [("goals", 1), ("apps", 0)] "FW" = 342 ∧
    rawWeightedSum preWeightsFW [("goals", 1), ("apps", 0)] = 9 ∧
    (342 : ℚ) ≠ 9 := by
  refine ⟨?_, ?_, by norm_num⟩ <;>
    simp [calc_score, pre_position_weights, rawWeightedSum, statLookup, preWeightsFW] <;>
    norm_num

/-- Claim C1 as amended: for every position in {FW, MF, DF, GK},
`fpl_analyzer.calculate_fpl_score` behaves as the claim states (positive
games-played rescales the raw weighted sum by `38 / gamesPlayed`; zero or
absent games-played returns the raw sum unchanged), while
`pre_draft.calc_score` always rescales by `38 / max(apps, 1)`: for
games-played (`apps`) ≥ 1 it also equals `rawSum * 38 / apps`, but for zero
or absent `apps` it returns `rawSum * 38`, not the raw sum. -/
theorem C1_amended (r : PlayerRecord) (stats : List (String × ℚ)) (pos : String)
    (wa wp : List (String × ℚ))
    (hwa : position_weights pos = some wa)
    (hwp : pre_position_weights pos = some wp) :
    (∀ g : ℚ, statLookup r.stats "games_played" = some g → 1 ≤ g →
      calculate_fpl_score r pos = some (rawWeightedSum wa r.stats * 38 / g)) ∧
    (statLookup r.stats "games_played" = some 0 ∨
        statLookup r.stats "games_played" = none →
      calculate_fpl_score r pos = some (rawWeightedSum wa r.stats)) ∧
    (∀ a : ℚ, statLookup stats "apps" = some a → 1 ≤ a →
      calc_score stats pos = rawWeightedSum wp stats * 38 / a) ∧
    (statLookup stats "apps" = some 0 ∨ statLookup stats "apps" = none →
      calc_score stats pos = rawWeightedSum wp stats * 38) := by
  refine ⟨?_, ?_, ?_, ?_⟩
  · intro g hg hg1
    rw [calculate_fpl_score, hwa]
    simp only [hg]
    rw [if_pos (by linarith), max_eq_left hg1, mul_div_assoc]
  · rintro (hg | hg) <;> rw [calculate_fpl_score, hwa] <;> simp [hg]
  · intro a ha ha1
    rw [calc_score, hwp]
    simp only [ha, Option.getD_some, max_eq_left ha1]
    rw [div_mul_eq_mul_div]
  · rintro (ha | ha) <;> rw [calc_score, hwp] <;>
      simp [ha, show max (0:ℚ) 1 = 1 by decide]

theorem C1_amended_witness :
    calculate_fpl_score ⟨"P", "T", "FW", [("goals", 2), ("games_played", 19)]⟩ "FW"
      = some 36 ∧
    calculate_fpl_score ⟨"P", "T", "FW", [("goals", 2), ("games_played", 0)]⟩ "FW"
      = some 18 ∧
    calc_score [("goals", 2), ("apps", 19)] "FW" = 36 ∧
    calc_score [("goals", 2)] "FW" = 684 := by
  have h := C1_amended ⟨"P", "T", "FW", [("goals", 2), ("games_played", 19)]⟩
    [("goals", 2), ("apps", 19)] "FW" analyzerWeightsFW preWeightsFW rfl rfl
  have h0 := C1_amended ⟨"P", "T", "FW", [("goals", 2), ("games_played", 0)]⟩
    [("goals", 2)] "FW" analyzerWeightsFW preWeightsFW rfl rfl
  refine ⟨(h.1 19 (by simp [statLookup]) (by norm_num)).trans ?_,
    (h0.2.1 (Or.inl (by simp [statLookup]))).trans ?_,
    (h.2.2.1 19 (by simp [statLookup]) (by norm_num)).trans ?_,
    (h0.2.2.2 (Or.inr (by simp [statLookup]))).trans ?_⟩ <;>
    simp [rawWeightedSum, statLookup, analyzerWeightsFW, preWeightsFW] <;>
    norm_num

/-- Claim C4 counterexample: for the position string `"XX"` (outside the four
known positions) `calculate_fpl_score` raises `KeyError` (modelled `none`,
i.e. a crash, not a defined error result) and `calc_score` silently returns
the score `0` — neither yields a `ScoringError`. -/
theorem C4_counterexample :
    calculate_fpl_score ⟨"P", "T", "XX", [("goals", 1)]⟩ "XX" = none ∧
    calc_score [("goals", 1)] "XX" = 0 := by
  exact ⟨rfl, rfl⟩

/-- Claim C4 as amended: for every position outside {FW, MF, DF, GK},
`fpl_analyzer.calculate_fpl_score` fails with an uncaught dictionary
`KeyError` (a crash), and `pre_draft.calc_score` returns the ordinary score
`0` with no error signal; neither implementation produces a defined
`ScoringError` value. -/
theorem C4_amended (r : PlayerRecord) (stats : List (String × ℚ)) (pos : String)
    (h : pos ∉ ["FW", "MF", "DF", "GK"]) :
    calculate_fpl_score r pos = none ∧ calc_score stats pos = 0 := by
  simp only [List.mem_cons, List.not_mem_nil, or_false, not_or] at h
  obtain ⟨h1, h2, h3, h4⟩ := h
  constructor
  · rw [calculate_fpl_score, position_weights,
      if_neg h1, if_neg h2, if_neg h3, if_neg h4]
  · rw [calc_score, pre_position_weights,
      if_neg h1, if_neg h2, if_neg h3, if_neg h4]

theorem C4_amended_witness :
    "ST" ∉ ["FW", "MF", "DF", "GK"] ∧
    calculate_fpl_score ⟨"P", "T", "ST", [("goals", 1)]⟩ "ST" = none ∧
    calc_score [("goals", 1)] "ST" = 0 :=
  ⟨by decide, C4_amended ⟨"P", "T", "ST", [("goals", 1)]⟩ [("goals", 1)] "ST" (by decide)⟩

/-- Claim C6 counterexample: calling `fpl_analyzer.add_taken_players` twice
with the same identifier grows the taken list to length 2 — the second call
does not leave the size unchanged, so that implementation of `markTaken` is
not idempotent. -/
theorem C6_counterexample :
    add_taken_players (add_taken_players [] ["X"]) ["X"] = ["X", "X"] ∧
    (["X", "X"] : List String).length ≠ (["X"] : List String).length := by
  exact ⟨rfl, by decide⟩

/-- Claim C6 as amended: `live_draft.add_taken_player` is idempotent exactly
as the claim states — the first call with an absent identifier appends it and
the second call with the same identifier leaves the list (hence its size)
unchanged and returns the distinguishable `AlreadyTaken` signal — whereas
`fpl_analyzer.add_taken_players` extends the list unconditionally, so a
repeated identifier accumulates instead of being ignored. -/
theorem C6_amended (taken : List String) (name : String) (h : name ∉ taken) :
    add_taken_player taken name = (taken ++ [name], .newlyTaken) ∧
    add_taken_player (taken ++ [name]) name = (taken ++ [name], .alreadyTaken) ∧
    (add_taken_player (taken ++ [name]) name).1.length = (taken ++ [name]).length ∧
    add_taken_players taken [name] = taken ++ [name] ∧
    add_taken_players (taken ++ [name]) [name] = taken ++ [name] ++ [name] := by
  have hmem : name ∈ taken ++ [name] := by simp
  refine ⟨?_, ?_, ?_, rfl, rfl⟩
  · rw [add_taken_player, if_neg h]
  · rw [add_taken_player, if_pos hmem]
  · rw [add_taken_player, if_pos hmem]

theorem C6_amended_witness :
    "X" ∉ ([] : List String) ∧
    add_taken_player [] "X" = (["X"], .newlyTaken) ∧
    add_taken_player ["X"] "X" = (["X"], .alreadyTaken) ∧
    (add_taken_player ["X"] "X").1.length = (["X"] : List String).length ∧
    add_taken_players [] ["X"] = ["X"] ∧
    add_taken_players ["X"] ["X"] = ["X", "X"] := by
  have h := C6_amended [] "X" (by decide)
  exact ⟨by decide, h.1, h.2.1, h.2.2.1, h.2.2.2.1, h.2.2.2.2⟩

/-- Claim C10: adding to the `BENCH` bucket always succeeds and appends,
regardless of how many players the bench already holds (its configured
requirement of 6 is never enforced), while each non-bench position is
rejected, unchanged, once its required count has been reached. -/
theorem C10_bench_unbounded (r : Roster) (taken : List String) (name : String) :
    ((add_to_your_roster r taken name "BENCH").2.2 = .added ∧
      (add_to_your_roster r taken name "BENCH").1.bench = r.bench ++ [name]) ∧
    (∀ pos ∈ ["FW", "MF", "DF", "GK"], ∀ cur : List String,
      roster_get r pos = some cur → roster_requirements pos ≤ cur.length →
      add_to_your_roster r taken name pos = (r, taken, .positionFull)) := by
  constructor
  · constructor <;>
      simp [add_to_your_roster, roster_get, roster_set, roster_requirements]
  · intro pos hpos cur hcur hlen
    fin_cases hpos
    all_goals
      simp only [roster_get, String.reduceEq, reduceIte, Option.some.injEq] at hcur
      subst hcur
      simp only [roster_requirements, String.reduceEq, reduceIte] at hlen
      simp only [add_to_your_roster, roster_get, roster_requirements,
        String.reduceEq, reduceIte, or_false]
      rw [if_neg (by omega)]

theorem C10_witness :
    ((add_to_your_roster ⟨["a", "b"], [], [], [], ["c", "d", "e", "f", "g", "h"]⟩
        [] "Z" "BENCH").2.2 = .added ∧
      (add_to_your_roster ⟨["a", "b"], [], [], [], ["c", "d", "e", "f", "g", "h"]⟩
        [] "Z" "BENCH").1.bench = ["c", "d", "e", "f", "g", "h"] ++ ["Z"]) ∧
    add_to_your_roster ⟨["a", "b"], [], [], [], ["c", "d", "e", "f", "g", "h"]⟩
        [] "Z" "FW"
      = (⟨["a", "b"], [], [], [], ["c", "d", "e", "f", "g", "h"]⟩, [], .positionFull) := by
  have h := C10_bench_unbounded
    ⟨["a", "b"], [], [], [], ["c", "d", "e", "f", "g", "h"]⟩ [] "Z"
  exact ⟨h.1, h.2 "FW" (by decide) ["a", "b"] rfl (by decide)⟩

/-! ## Helper lemmas and claim theorems -/

theorem stableDescSort_take_pairwise {α : Type} (key : α → ℚ) (l : List α) (k : ℕ) :
    ((stableDescSort key l).take k).Pairwise (rankGe key) :=
  List.Pairwise.sublist (List.take_sublist k _) (List.sorted_insertionSort _ l.enum)

theorem stableAscSort_take_pairwise {α : Type} (key : α → ℚ) (l : List α) (k : ℕ) :
    ((stableAscSort key l).take k).Pairwise (rankLe key) :=
  List.Pairwise.sublist (List.take_sublist k _) (List.sorted_insertionSort _ l.enum)

theorem mem_enum_of_mem_stableDescSort_take {α : Type} {key : α → ℚ} {l : List α}
    {k : ℕ} {p : ℕ × α} (h : p ∈ (stableDescSort key l).take k) : p ∈ l.enum :=
  (List.perm_insertionSort (rankGe key) l.enum).mem_iff.mp
    ((List.take_sublist k _).subset h)

theorem mem_enum_of_mem_stableAscSort_take {α : Type} {key : α → ℚ} {l : List α}
    {k : ℕ} {p : ℕ × α} (h : p ∈ (stableAscSort key l).take k) : p ∈ l.enum :=
  (List.perm_insertionSort (rankLe key) l.enum).mem_iff.mp
    ((List.take_sublist k _).subset h)

theorem snd_mem_of_mem_enum {α : Type} {l : List α} {p : ℕ × α}
    (h : p ∈ l.enum) : p.2 ∈ l :=
  List.enumFrom_map_snd 0 l ▸ List.mem_map_of_mem Prod.snd h

/-- Claim C7 counterexample: `get_available_players` with `n = -1` (an `n ≤ 0`
input) returns 4 of the 5 available forwards — `head(-1)` drops only the last
row — instead of the empty sequence the claim requires. -/
theorem C7_counterexample :
    (-1 : ℤ) ≤ 0 ∧ (get_available_players [] "FW" (-1)).length = 4 ∧ (4 : ℕ) ≠ 0 := by
  refine ⟨by decide, by decide, by decide⟩

/-- Claim C7 as amended: `fpl_analyzer.suggest_players` satisfies the claim in
full — at most `n` records, none taken, sorted by descending score with ties
broken by position in the (load-ordered) eligible pool, and empty for `n ≤ 0`
or an empty eligible pool.  `live_draft.get_available_players` returns at
most `n` untaken records in pool order (descending score, since its sample
pools are stored sorted) and is empty for `n = 0`, but for `n < 0` it returns
all but the last `|n|` eligible records rather than an empty sequence. -/
theorem C7_amended (taken excl : List String) (pos : String) (n : ℤ) :
    (suggest_players taken excl pos n).length ≤ n.toNat ∧
    (∀ r ∈ suggest_players taken excl pos n, r.player ∉ taken) ∧
    (suggest_players taken excl pos n).Pairwise
      (fun a b => analyzerScore b pos ≤ analyzerScore a pos) ∧
    (∀ q ∈ suggest_annotated taken excl pos n,
      (available_players taken excl pos)[q.1]? = some q.2) ∧
    (suggest_annotated taken excl pos n).Pairwise
      (fun a b => analyzerScore a.2 pos = analyzerScore b.2 pos → a.1 ≤ b.1) ∧
    (n ≤ 0 → suggest_players taken excl pos n = []) ∧
    (available_players taken excl pos = [] → suggest_players taken excl pos n = []) ∧
    (0 ≤ n → (get_available_players taken pos n).length ≤ n.toNat) ∧
    (∀ q ∈ get_available_players taken pos n, q.name ∉ taken) ∧
    (get_available_players taken pos n).Pairwise
      (fun a b => b.fpl_score ≤ a.fpl_score) ∧
    (n < 0 → (get_available_players taken pos n).length
      = (l_available taken pos).length - (-n).toNat) := by
  have hmem : ∀ q ∈ suggest_annotated taken excl pos n,
      q ∈ (available_players taken excl pos).enum := by
    intro q hq
    rw [suggest_annotated] at hq
    split_ifs at hq
    · simp at hq
    · simp at hq
    · exact mem_enum_of_mem_stableDescSort_take hq
  have hpairs : (suggest_annotated taken excl pos n).Pairwise
      (rankGe (fun r => analyzerScore r pos)) := by
    rw [suggest_annotated]
    split_ifs
    · exact List.Pairwise.nil
    · exact List.Pairwise.nil
    · exact stableDescSort_take_pairwise _ _ _
  have hlen : (suggest_players taken excl pos n).length ≤ n.toNat := by
    rw [suggest_players, List.length_map, suggest_annotated]
    split_ifs
    · simp
    · simp
    · exact List.length_take_le _ _
  have hnt : ∀ r ∈ suggest_players taken excl pos n, r.player ∉ taken := by
    intro r hr
    rw [suggest_players] at hr
    obtain ⟨q, hq, rfl⟩ := List.mem_map.mp hr
    have h1 : q.2 ∈ available_players taken excl pos :=
      snd_mem_of_mem_enum (hmem q hq)
    rw [available_players] at h1
    have h2 := (List.mem_filter.mp h1).2
    simp only [decide_eq_true_eq] at h2
    exact h2.2.1
  have hsort : (suggest_players taken excl pos n).Pairwise
      (fun a b => analyzerScore b pos ≤ analyzerScore a pos) := by
    rw [suggest_players]
    refine List.pairwise_map.mpr (hpairs.imp ?_)
    rintro a b (h | ⟨h, _⟩)
    · exact le_of_lt h
    · exact le_of_eq h.symm
  have hstab : (suggest_annotated taken excl pos n).Pairwise
      (fun a b => analyzerScore a.2 pos = analyzerScore b.2 pos → a.1 ≤ b.1) := by
    refine hpairs.imp ?_
    rintro a b (h | ⟨_, h1⟩) <;> intro heq
    · exact absurd heq (ne_of_gt h)
    · exact h1
  have hget : ∀ q ∈ suggest_annotated taken excl pos n,
      (available_players taken excl pos)[q.1]? = some q.2 := by
    intro q hq
    exact List.mem_enum_iff_getElem?.mp (hmem q hq)
  have hn0 : n ≤ 0 → suggest_players taken excl pos n = [] := by
    intro hn
    rw [suggest_players, suggest_annotated]
    split_ifs <;> rfl
  have hae : available_players taken excl pos = [] →
      suggest_players taken excl pos n = [] := by
    intro h
    rw [suggest_players, suggest_annotated, if_pos h]
    rfl
  have hpool : (live_pool pos).Pairwise
      (fun a b : LPlayer => b.fpl_score ≤ a.fpl_score) := by
    rw [live_pool]
    split_ifs <;> first
      | exact List.Pairwise.nil
      | (rw [liveFW]; decide)
      | (rw [liveMF]; decide)
      | (rw [liveDF]; decide)
      | (rw [liveGK]; decide)
  have hfilt : (l_available taken pos).Pairwise
      (fun a b : LPlayer => b.fpl_score ≤ a.fpl_score) := by
    rw [l_available]
    exact List.Pairwise.filter _ hpool
  have hg1 : 0 ≤ n → (get_available_players taken pos n).length ≤ n.toNat := by
    intro hn
    rw [get_available_players]
    split_ifs
    · simp
    · simp
    · rw [pyHead, if_pos hn]
      exact List.length_take_le _ _
  have hg2 : ∀ q ∈ get_available_players taken pos n, q.name ∉ taken := by
    intro q hq
    rw [get_available_players] at hq
    split_ifs at hq
    · simp at hq
    · simp at hq
    · have h1 : q ∈ l_available taken pos := by
        rw [pyHead] at hq
        split_ifs at hq <;> exact (List.take_sublist _ _).subset hq
      rw [l_available] at h1
      have h2 := (List.mem_filter.mp h1).2
      simpa using h2
  have hg3 : (get_available_players taken pos n).Pairwise
      (fun a b : LPlayer => b.fpl_score ≤ a.fpl_score) := by
    rw [get_available_players]
    split_ifs
    · exact List.Pairwise.nil
    · exact List.Pairwise.nil
    · rw [pyHead]
      split_ifs <;> exact List.Pairwise.sublist (List.take_sublist _ _) hfilt
  have hg4 : n < 0 → (get_available_players taken pos n).length
      = (l_available taken pos).length - (-n).toNat := by
    intro hn
    rw [get_available_players]
    split_ifs with h1 h2
    · rw [l_available, h1]
      simp
    · rw [h2]
      simp
    · rw [pyHead, if_neg (by omega), List.length_take]
      omega
  exact ⟨hlen, hnt, hsort, hget, hstab, hn0, hae, hg1, hg2, hg3, hg4⟩

theorem C7_amended_witness :
    ((suggest_players ["Mohamed Salah"] [] "FW" 3).length ≤ (3 : ℤ).toNat ∧
      (∀ r ∈ suggest_players ["Mohamed Salah"] [] "FW" 3,
        r.player ∉ ["Mohamed Salah"]) ∧
      (suggest_players ["Mohamed Salah"] [] "FW" 3).Pairwise
        (fun a b => analyzerScore b "FW" ≤ analyzerScore a "FW") ∧
      (∀ q ∈ suggest_annotated ["Mohamed Salah"] [] "FW" 3,
        (available_players ["Mohamed Salah"] [] "FW")[q.1]? = some q.2) ∧
      (suggest_annotated ["Mohamed Salah"] [] "FW" 3).Pairwise
        (fun a b => analyzerScore a.2 "FW" = analyzerScore b.2 "FW" → a.1 ≤ b.1) ∧
      ((3 : ℤ) ≤ 0 → suggest_players ["Mohamed Salah"] [] "FW" 3 = []) ∧
      (available_players ["Mohamed Salah"] [] "FW" = [] →
        suggest_players ["Mohamed Salah"] [] "FW" 3 = []) ∧
      ((0 : ℤ) ≤ 3 → (get_available_players ["Mohamed Salah"] "FW" 3).length ≤ (3 : ℤ).toNat) ∧
      (∀ q ∈ get_available_players ["Mohamed Salah"] "FW" 3, q.name ∉ ["Mohamed Salah"]) ∧
      (get_available_players ["Mohamed Salah"] "FW" 3).Pairwise
        (fun a b => b.fpl_score ≤ a.fpl_score) ∧
      ((3 : ℤ) < 0 → (get_available_players ["Mohamed Salah"] "FW" 3).length
        = (l_available ["Mohamed Salah"] "FW").length - (-(3 : ℤ)).toNat)) ∧
    get_available_players ["Erling Haaland"] "FW" 2
      = [⟨"Mohamed Salah", "Liverpool", 275⟩, ⟨"Harry Kane", "Tottenham", 265⟩] :=
  ⟨C7_amended ["Mohamed Salah"] [] "FW" 3, by decide⟩

/-- Claim C8: every record returned by `identify_value_picks` has its value
metric at or above the position's percentile threshold (70th for FW/MF, 60th
for DF/GK) and a score strictly below the 80th-percentile score threshold of
the eligible set; the result is ordered ascending by score and capped to a
fixed count (5). -/
theorem C8_value_picks_thresholds (rows : List VRow) (minApps : ℚ) (pos : String) :
    (∀ r ∈ identify_value_picks rows minApps pos,
      value_threshold rows minApps pos ≤ value_metric pos r ∧
      r.fpl_score < score_threshold rows minApps pos) ∧
    (identify_value_picks rows minApps pos).Pairwise
      (fun a b => a.fpl_score ≤ b.fpl_score) ∧
    (identify_value_picks rows minApps pos).length ≤ 5 := by
  refine ⟨?_, ?_, ?_⟩
  · intro r hr
    rw [identify_value_picks] at hr
    split_ifs at hr
    · simp at hr
    · have h1 : r ∈ (List.map Prod.snd ((stableAscSort VRow.fpl_score
          (value_candidates rows minApps pos)).take 10)) :=
        (List.take_sublist _ _).subset hr
      obtain ⟨q, hq, rfl⟩ := List.mem_map.mp h1
      have h2 : q.2 ∈ value_candidates rows minApps pos :=
        snd_mem_of_mem_enum (mem_enum_of_mem_stableAscSort_take hq)
      rw [value_candidates] at h2
      have h3 := (List.mem_filter.mp h2).2
      simpa using h3
    · simp at hr
  · rw [identify_value_picks]
    split_ifs
    · exact List.Pairwise.nil
    · refine List.Pairwise.sublist (List.take_sublist _ _) ?_
      refine List.pairwise_map.mpr ?_
      refine List.Pairwise.imp ?_ (stableAscSort_take_pairwise _ _ _)
      rintro a b (h | ⟨h, _⟩)
      · exact le_of_lt h
      · exact le_of_eq h
    · exact List.Pairwise.nil
  · rw [identify_value_picks]
    split_ifs
    · simp
    · exact List.length_take_le _ _
    · simp

theorem C8_witness :
    (∀ r ∈ identify_value_picks value_sample_rows 0 "GK",
      value_threshold value_sample_rows 0 "GK" ≤ value_metric "GK" r ∧
      r.fpl_score < score_threshold value_sample_rows 0 "GK") ∧
    (identify_value_picks value_sample_rows 0 "GK").Pairwise
      (fun a b => a.fpl_score ≤ b.fpl_score) ∧
    (identify_value_picks value_sample_rows 0 "GK").length ≤ 5 ∧
    identify_value_picks value_sample_rows 0 "GK"
      = [⟨"G1", "T", "GK", 10, 0, 0, 5, 0, 1⟩] := by
  have h := C8_value_picks_thresholds value_sample_rows 0 "GK"
  have h1 : value_threshold value_sample_rows 0 "GK" = 5 := by
    simp +decide [value_threshold, pyQuantile, sortedVals, pos_eligible,
      value_sample_rows, value_metric, List.insertionSort, List.orderedInsert]
  have h2 : score_threshold value_sample_rows 0 "GK" = 9 / 5 := by
    simp +decide [score_threshold, pyQuantile, sortedVals, pos_eligible,
      value_sample_rows, List.insertionSort, List.orderedInsert] <;> norm_num
  have h3 : value_candidates value_sample_rows 0 "GK"
      = [⟨"G1", "T", "GK", 10, 0, 0, 5, 0, 1⟩] := by
    simp only [value_candidates, h1, h2]
    simp +decide [pos_eligible, value_sample_rows, value_metric]
    norm_num
  have heval : identify_value_picks value_sample_rows 0 "GK"
      = [⟨"G1", "T", "GK", 10, 0, 0, 5, 0, 1⟩] := by
    rw [identify_value_picks, if_pos (by decide),
      if_neg (by simp +decide [pos_eligible, value_sample_rows]), h3]
    simp +decide [stableAscSort, List.insertionSort, List.orderedInsert,
      List.enum, List.enumFrom]
  exact ⟨h.1, h.2.1, h.2.2, heval⟩
